import Mathlib

/-!
Shallow embedding of the consul-online readiness prober (src/lib.rs).

Durations are modelled as natural numbers of milliseconds; `fromSecs`
mirrors `Duration::from_secs`.  Rust strings that need structural
reasoning (the target address) are modelled as `List Char`; opaque paths
and token values stay `String`.  The filesystem, the PEM parser and the
rustls certificate installers are external effects, modelled as oracle
functions gathered in a `World`.  Fallible Rust functions returning
`Result<T, Error>` become `Except Err T`; the polling loop is modelled
with explicit fuel, `none` meaning the fuel ran out before the loop
terminated.
-/

namespace ConsulOnline

/-- `Duration::from_secs`, in milliseconds. -/
def fromSecs (s : Nat) : Nat := 1000 * s

/-- The `Error` enum of src/lib.rs.  Payloads that only wrap foreign
error values (`std::io::Error`, `pem::PemError`, ...) are dropped; the
payloads the loop logic inspects (HTTP status, elapsed duration) are kept.
`Error::Request(ureq::Error::Status(s, _))` is split from
`Error::Request(transport)` because `wait` matches on exactly that split. -/
inductive Err where
  | general
  | unixSocketUnsupported
  | invalidBool
  | readCaCert
  | parseCaCert
  | addCaCert
  | addClientCertErr
  | missingClientKey
  | missingClientCert
  | readClientKey
  | parseClientKey
  | readClientCert
  | parseClientCert
  | readTokenFile
  | requestStatus (code : Nat)
  | requestTransport
  | timeout (elapsedMs : Nat)
deriving DecidableEq

/-- The `Config` struct of src/lib.rs. -/
structure Config where
  http_addr : List Char
  http_ssl : Bool
  timeout : Option Nat
  interval : Option Nat
  reconnect : Bool
  skip_verify : Bool
  ca_cert : Option String
  client_cert : Option String
  client_key : Option String
  http_token : Option String
  http_token_file : Option String
deriving DecidableEq

/-- Oracles for the external effects the library calls into:
`fs` is `std::fs::read_to_string` (`none` = io error), `pemParse` is
`pem::parse` (`none` = parse error, `some` = the PEM `contents` bytes),
`singleCertOk` is whether `ConfigBuilder::with_single_cert` accepts the
given cert/key bytes, `caAddOk` is whether `RootCertStore::add` accepts
the given certificate bytes. -/
structure World where
  fs : String → Option String
  pemParse : String → Option (List Nat)
  singleCertOk : List Nat → List Nat → Bool
  caAddOk : List Nat → Bool

/-- The server-certificate verifier chosen by `add_verifier`: either the
`SkippingVerifier` or a root store holding the webpki default anchors
plus the optionally appended extra CA certificate. -/
inductive Verifier where
  | skipping
  | withRoots (extraCa : Option (List Nat))
deriving DecidableEq

/-- Client authentication installed on the rustls `ClientConfig`:
`with_no_client_auth` or `with_single_cert`. -/
inductive ClientAuth where
  | noAuth
  | singleCert (cert key : List Nat)
deriving DecidableEq

/-- The observable outcome of building a rustls `ClientConfig`. -/
structure TlsClientConfig where
  verifier : Verifier
  auth : ClientAuth
deriving DecidableEq

/-- `load_client_cert` of src/lib.rs. -/
def loadClientCert (w : World) (path : String) : Except Err (List Nat) :=
  match w.fs path with
  | none => .error .readClientCert
  | some s =>
    match w.pemParse s with
    | none => .error .parseClientCert
    | some contents => .ok contents

/-- `load_client_key` of src/lib.rs. -/
def loadClientKey (w : World) (path : String) : Except Err (List Nat) :=
  match w.fs path with
  | none => .error .readClientKey
  | some s =>
    match w.pemParse s with
    | none => .error .parseClientKey
    | some contents => .ok contents

/-- `add_client_cert` of src/lib.rs.  The staged rustls builder is
modelled by the already-chosen `Verifier`.  The source evaluates
`load_client_cert` first, then `load_client_key`, then
`with_single_cert`; errors propagate in that order. -/
def addClientCert (w : World) (config : Config) (v : Verifier) :
    Except Err TlsClientConfig :=
  match config.client_cert with
  | some cert =>
    match config.client_key with
    | some key =>
      match loadClientCert w cert with
      | .error e => .error e
      | .ok certBytes =>
        match loadClientKey w key with
        | .error e => .error e
        | .ok keyBytes =>
          if w.singleCertOk certBytes keyBytes then
            .ok ⟨v, .singleCert certBytes keyBytes⟩
          else .error .addClientCertErr
    | none => .error .missingClientKey
  | none =>
    match config.client_key with
    | some _ => .error .missingClientCert
    | none => .ok ⟨v, .noAuth⟩

/-- `add_client_cert2` of src/lib.rs: textually the same logic as
`add_client_cert`, duplicated in the source only because the two rustls
builder type-states differ. -/
def addClientCert2 (w : World) (config : Config) (v : Verifier) :
    Except Err TlsClientConfig :=
  match config.client_cert with
  | some cert =>
    match config.client_key with
    | some key =>
      match loadClientCert w cert with
      | .error e => .error e
      | .ok certBytes =>
        match loadClientKey w key with
        | .error e => .error e
        | .ok keyBytes =>
          if w.singleCertOk certBytes keyBytes then
            .ok ⟨v, .singleCert certBytes keyBytes⟩
          else .error .addClientCertErr
    | none => .error .missingClientKey
  | none =>
    match config.client_key with
    | some _ => .error .missingClientCert
    | none => .ok ⟨v, .noAuth⟩

/-- `add_verifier` of src/lib.rs.  With `skip_verify` the custom
`SkippingVerifier` is installed and `add_client_cert` runs; otherwise the
webpki root store is built, the optional CA certificate is read, parsed
and added (each step fallible, in that order), and `add_client_cert2`
runs. -/
def addVerifier (w : World) (config : Config) : Except Err TlsClientConfig :=
  if config.skip_verify then
    addClientCert w config .skipping
  else
    match config.ca_cert with
    | some ca =>
      match w.fs ca with
      | none => .error .readCaCert
      | some s =>
        match w.pemParse s with
        | none => .error .parseCaCert
        | some contents =>
          if w.caAddOk contents then
            addClientCert2 w config (.withRoots (some contents))
          else .error .addCaCert
    | none => addClientCert2 w config (.withRoots none)

/-- `build_tls_config` of src/lib.rs (the cipher-suite/kx/protocol
builder stages carry no observable state). -/
def buildTlsConfig (w : World) (config : Config) : Except Err TlsClientConfig :=
  addVerifier w config

/-- The literal `"http://"`. -/
def httpPre : List Char := "http://".data

/-- The literal `"https://"`. -/
def httpsPre : List Char := "https://".data

/-- The literal `"unix:/"`. -/
def unixPre : List Char := "unix:/".data

/-- `url_base` of src/lib.rs.  Note the source's scheme upgrade is
`format!("https://{}", http_addr.split_at(6).1)`: it drops only the six
characters `http:/` from the address, keeping the second slash. -/
def urlBase (config : Config) : Except Err (List Char × Bool) :=
  if httpPre.isPrefixOf config.http_addr then
    if config.http_ssl then
      .ok (httpsPre ++ config.http_addr.drop 6, true)
    else
      .ok (config.http_addr, false)
  else if httpsPre.isPrefixOf config.http_addr then
    .ok (config.http_addr, true)
  else if unixPre.isPrefixOf config.http_addr then
    .error .unixSocketUnsupported
  else if config.http_ssl then
    .ok (httpsPre ++ config.http_addr, true)
  else
    .ok (httpPre ++ config.http_addr, false)

/-- The fixed health-check path appended by `agent_and_url`. -/
def raftPath : List Char := "/v1/operator/raft/configuration".data

/-- The observable state of the built `ureq::Agent`. -/
structure Agent where
  httpsOnly : Bool
  tls : Option TlsClientConfig
deriving DecidableEq

/-- `agent_and_url` of src/lib.rs: resolve the base URL, build the TLS
configuration only when the transport is TLS, append the health-check
path. -/
def agentAndUrl (w : World) (config : Config) : Except Err (Agent × List Char) :=
  match urlBase config with
  | .error e => .error e
  | .ok (url, ssl) =>
    if ssl then
      match buildTlsConfig w config with
      | .error e => .error e
      | .ok tls => .ok (⟨true, some tls⟩, url ++ raftPath)
    else
      .ok (⟨false, none⟩, url ++ raftPath)

/-- The literal `"X-Consul-Token"`. -/
def tokenHeaderName : String := "X-Consul-Token"

/-- Rust's `str::trim`: the string with leading and trailing whitespace
removed. -/
def rustTrim (s : String) : String :=
  ⟨((s.data.dropWhile Char.isWhitespace).reverse.dropWhile Char.isWhitespace).reverse⟩

/-- `HeaderAdder::try_new` of src/lib.rs: a literal token wins; with only
a token file, its contents are read and trimmed; a read failure is
`ReadTokenFile`; with neither, no header. -/
def headerAdderTryNew (w : World) (config : Config) :
    Except Err (Option (String × String)) :=
  match config.http_token with
  | some token => .ok (some (tokenHeaderName, token))
  | none =>
    match config.http_token_file with
    | some f =>
      match w.fs f with
      | none => .error .readTokenFile
      | some s => .ok (some (tokenHeaderName, rustTrim s))
    | none => .ok none

/-- The `Result<u16>` that `do_request` hands to the loop: `Ok(status)`
for a delivered response, `Err(Error::Request(ureq::Error::Status(s, _)))`
for a response delivered as a status error, or any other error
(transport-level: connect, handshake, timeout expiry). -/
inductive AttemptResult where
  | ok (code : Nat)
  | statusErr (code : Nat)
  | transportErr
deriving DecidableEq

/-- Modelled from the spec: the requester (the external `ureq` call
behind `do_request`, out of scope per the spec) "distinguishes an HTTP
response carrying a non-2xx status (treated as OtherStatus/NotReadyYet,
not itself a transport error)"; a 2xx response is delivered as a plain
`Ok(status)`. -/
def reqChannel (status : Nat) : AttemptResult :=
  if 200 ≤ status ∧ status ≤ 299 then .ok status else .statusErr status

/-- The interval used by `wait`: `Duration::from_secs(config.interval.unwrap_or(10))`. -/
def intervalMs (config : Config) : Nat := fromSecs (config.interval.getD 10)

/-- The floor of the per-attempt timeout computed by `wait`:
`Duration::from_secs(0)` with `reconnect`, else `Duration::from_secs(10)`. -/
def floorMs (config : Config) : Nat :=
  if config.reconnect then fromSecs 0 else fromSecs 10

/-- The per-attempt timeout computed at the top of each iteration of
`wait`, given the elapsed time since `start_time` in milliseconds.
`checked_sub(..).unwrap_or(0)` is truncated subtraction on `Nat`. -/
def perAttemptTimeout (config : Config) (elapsed : Nat) : Nat :=
  max
    ((config.timeout.map fun g => min (fromSecs g - elapsed) (intervalMs config)).getD
      (intervalMs config))
    (floorMs config)

/-- The `match do_request(..)` block in `wait`, as a function of the
attempt's result: `some r` means the loop breaks with result `r`,
`none` means it continues to the budget re-check and the sleep. -/
def stepDecision (reconnect : Bool) : AttemptResult → Option (Except Err Unit)
  | .ok code => if code = 200 then some (.ok ()) else none
  | .statusErr s =>
    if s = 500 then none
    else if !reconnect then some (.error (.requestStatus s))
    else none
  | .transportErr =>
    if !reconnect then some (.error .requestTransport) else none

/-- The post-classification budget re-check in `wait`:
`start_time + Duration::from_secs(timeout) < now`. -/
def budgetExceeded (timeout : Option Nat) (now : Nat) : Bool :=
  match timeout with
  | some g => decide (fromSecs g < now)
  | none => false

/-- The loop of `wait`, with explicit fuel.  `k` is the attempt index,
`t` the elapsed milliseconds since `start_time` at the top of the
iteration; the oracle `attempt k` is the result of the `k`-th request
and `dur k` the wall-clock milliseconds it took.  After a `Continue`
decision the budget is re-checked at `now = t + dur k`; then the loop
sleeps `timeout − (now − req_start)` if positive, so the next iteration
starts at `now + (T - dur k)`.  `none` means the fuel ran out with the
loop still running. -/
def waitLoop (config : Config) (attempt : Nat → AttemptResult) (dur : Nat → Nat) :
    Nat → Nat → Nat → Option (Except Err Unit)
  | 0, _, _ => none
  | fuel + 1, k, t =>
    let T := perAttemptTimeout config t
    let now := t + dur k
    match stepDecision config.reconnect (attempt k) with
    | some r => some r
    | none =>
      if budgetExceeded config.timeout now then some (.error (.timeout now))
      else waitLoop config attempt dur fuel (k + 1) (now + (T - dur k))

/-- `wait` of src/lib.rs: build agent and URL, resolve the header, then
run the polling loop from `t = 0`. -/
def wait (w : World) (config : Config) (attempt : Nat → AttemptResult)
    (dur : Nat → Nat) (fuel : Nat) : Option (Except Err Unit) :=
  match agentAndUrl w config with
  | .error e => some (.error e)
  | .ok _ =>
    match headerAdderTryNew w config with
    | .error e => some (.error e)
    | .ok _ => waitLoop config attempt dur fuel 0 0

/-! ### Spec-side formulas (for refinement statements only) -/

/-- The spec's remaining-budget formula, in milliseconds:
`remaining = max(0, global_timeout - elapsed)`, over the integers. -/
def specRemaining (globalMs elapsed : Nat) : Int :=
  max 0 ((globalMs : Int) - (elapsed : Int))

/-- The spec's per-attempt-timeout formula:
`max(min(remaining, interval), floor)` when a global timeout is
configured, and `max(interval, floor)` otherwise. -/
def specPerAttemptTimeout (globalTimeout : Option Nat) (interval floor elapsed : Nat) :
    Int :=
  max
    (match globalTimeout with
     | some g => min (specRemaining (fromSecs g) elapsed) (interval : Int)
     | none => (interval : Int))
    (floor : Int)

/-! ### Claims -/

/-- C1: on every iteration the per-attempt timeout computed by `wait`
equals `max(min(remaining, interval), floor)` with
`remaining = max(0, global_timeout - elapsed)` when a global timeout is
configured (otherwise the whole min-term is the interval), where
`floor = 0` with the reconnect flag and `10` seconds without it; in
particular the computed timeout is always at least the floor. -/
theorem perAttemptTimeout_matches_spec (config : Config) (elapsed : Nat) :
    (perAttemptTimeout config elapsed : Int)
      = specPerAttemptTimeout config.timeout (intervalMs config) (floorMs config) elapsed
    ∧ floorMs config ≤ perAttemptTimeout config elapsed := by
  constructor
  · cases h : config.timeout with
    | none =>
      simp [perAttemptTimeout, specPerAttemptTimeout, h]
    | some g =>
      simp only [perAttemptTimeout, specPerAttemptTimeout, specRemaining, h,
        Option.map_some', Option.getD_some]
      push_cast
      omega
  · exact Nat.le_max_right _ _

/-- C4: whenever an attempt's decision is Continue (`stepDecision`
yields `none`), a global timeout is configured and the elapsed time at
the post-attempt check exceeds it, the loop terminates right there with
the `Timeout` error carrying the elapsed duration — no sleep and no
further attempt, for any remaining fuel. -/
theorem budget_recheck_terminates (config : Config) (attempt : Nat → AttemptResult)
    (dur : Nat → Nat) (g k t fuel : Nat)
    (hto : config.timeout = some g)
    (hcont : stepDecision config.reconnect (attempt k) = none)
    (hexc : fromSecs g < t + dur k) :
    waitLoop config attempt dur (fuel + 1) k t = some (.error (.timeout (t + dur k))) := by
  simp only [waitLoop, hcont]
  simp [budgetExceeded, hto, hexc]

/-- The configuration used to exhibit C4 at a concrete input:
`global_timeout = 5s`, default interval, reconnect disabled, a 500
response arriving after 6 seconds. -/
def cfgC4w : Config :=
  ⟨"h:8500".data, false, some 5, none, false, false, none, none, none, none, none⟩

/-- C4 witness: with a 5-second budget and an attempt that returns 500
after 6 seconds, the loop terminates with `Timeout 6000ms`. -/
theorem budget_recheck_terminates_witness :
    waitLoop cfgC4w (fun _ => .statusErr 500) (fun _ => 6000) 1 0 0
      = some (.error (.timeout 6000)) :=
  budget_recheck_terminates cfgC4w (fun _ => .statusErr 500) (fun _ => 6000) 5 0 0 0
    rfl rfl (by decide)

/-- The configuration of C5's scenario: address `http://h:8500` with the
explicit-TLS flag set. -/
def cfgC5 : Config :=
  ⟨"http://h:8500".data, true, none, none, false, false, none, none, none, none, none⟩

/-- C5: the spec says `"http://h:8500"` with explicit-TLS upgrades to
base `"https://h:8500"`; the code's `split_at(6)` drops only `http:/`
(six characters) from the address, so the produced base is
`"https:///h:8500"` with a triple slash (the transport is still marked
TLS).  This evaluates the code at the failing input. -/
theorem urlBase_ssl_upgrade_triple_slash :
    urlBase cfgC5 = .ok ("https:///h:8500".data, true)
    ∧ "https:///h:8500".data ≠ "https://h:8500".data :=
  ⟨rfl, by decide⟩

/-- Without reconnect tolerance every per-attempt timeout is at least
ten seconds, so every sleeping iteration advances the clock by at least
ten seconds: if the budget is already beaten by `t + 10000 * fuel`, the
loop reaches its timeout exit within `fuel + 1` iterations. -/
lemma waitLoop_all500_progress (config : Config) (attempt : Nat → AttemptResult)
    (dur : Nat → Nat) (g : Nat)
    (hrec : config.reconnect = false) (hto : config.timeout = some g)
    (hatt : ∀ k, attempt k = .statusErr 500) :
    ∀ fuel k t, fromSecs g < t + 10000 * fuel →
      ∃ e, waitLoop config attempt dur (fuel + 1) k t = some (.error (.timeout e)) := by
  intro fuel
  induction fuel with
  | zero =>
    intro k t h
    refine ⟨t + dur k, ?_⟩
    simp only [waitLoop, hatt k, stepDecision, if_pos rfl]
    have hb : budgetExceeded config.timeout (t + dur k) = true := by
      simp only [budgetExceeded, hto, decide_eq_true_eq]
      omega
    simp [hb]
  | succ n ih =>
    intro k t h
    have hT : 10000 ≤ perAttemptTimeout config t := by
      have hfloor : floorMs config = 10000 := by
        simp [floorMs, hrec, fromSecs]
      calc 10000 = floorMs config := hfloor.symm
        _ ≤ perAttemptTimeout config t := Nat.le_max_right _ _
    by_cases hb : fromSecs g < t + dur k
    · refine ⟨t + dur k, ?_⟩
      simp only [waitLoop, hatt k, stepDecision, if_pos rfl]
      have hb' : budgetExceeded config.timeout (t + dur k) = true := by
        simp only [budgetExceeded, hto, decide_eq_true_eq]
        omega
      simp [hb']
    · have hb' : budgetExceeded config.timeout (t + dur k) = false := by
        simp only [budgetExceeded, hto, decide_eq_false_iff_not]
        omega
      have step :
          waitLoop config attempt dur (n + 1 + 1) k t
            = waitLoop config attempt dur (n + 1) (k + 1)
                (t + dur k + (perAttemptTimeout config t - dur k)) := by
        simp only [waitLoop, hatt k, stepDecision, if_pos rfl]
        simp [hb']
      rw [step]
      exact ih (k + 1) (t + dur k + (perAttemptTimeout config t - dur k)) (by omega)

/-- C2: with reconnect disabled and every attempt returning HTTP status
500, a 500 is always classified Continue (regardless of the reconnect
flag), the loop never terminates fatally (every bounded run either is
still running or has timed out — it never yields a fatal request error
nor success), and with a global timeout configured it eventually
terminates with the timed-out decision. -/
theorem all500_never_fatal_times_out (config : Config) (attempt : Nat → AttemptResult)
    (dur : Nat → Nat) (g : Nat)
    (hrec : config.reconnect = false) (hto : config.timeout = some g)
    (hatt : ∀ k, attempt k = .statusErr 500) :
    (∀ r, stepDecision r (.statusErr 500) = none)
    ∧ (∀ fuel k t, waitLoop config attempt dur fuel k t = none
        ∨ ∃ e, waitLoop config attempt dur fuel k t = some (.error (.timeout e)))
    ∧ (∃ fuel e, waitLoop config attempt dur fuel 0 0 = some (.error (.timeout e))) := by
  refine ⟨fun r => by cases r <;> rfl, ?_, ?_⟩
  · intro fuel
    induction fuel with
    | zero => intro k t; exact Or.inl rfl
    | succ n ih =>
      intro k t
      by_cases hb : budgetExceeded config.timeout (t + dur k) = true
      · refine Or.inr ⟨t + dur k, ?_⟩
        simp only [waitLoop, hatt k, stepDecision, if_pos rfl]
        simp [hb]
      · have step :
            waitLoop config attempt dur (n + 1) k t
              = waitLoop config attempt dur n (k + 1)
                  (t + dur k + (perAttemptTimeout config t - dur k)) := by
          simp only [waitLoop, hatt k, stepDecision, if_pos rfl]
          simp [hb]
        rw [step]
        exact ih (k + 1) _
  · obtain ⟨e, he⟩ :=
      waitLoop_all500_progress config attempt dur g hrec hto hatt (g + 1) 0 0
        (by simp only [fromSecs]; omega)
    exact ⟨g + 1 + 1, e, he⟩

/-- The configuration used to exhibit C2 concretely: a 2-second global
budget, reconnect disabled. -/
def cfgC2w : Config :=
  ⟨"h:8500".data, false, some 2, none, false, false, none, none, none, none, none⟩

/-- C2 witness: a concrete all-500 run under a 2-second budget
eventually produces the timed-out decision. -/
theorem all500_never_fatal_times_out_witness :
    ∃ fuel e, waitLoop cfgC2w (fun _ => .statusErr 500) (fun _ => 0) fuel 0 0
      = some (.error (.timeout e)) :=
  (all500_never_fatal_times_out cfgC2w (fun _ => .statusErr 500) (fun _ => 0) 2
    rfl rfl (fun _ => rfl)).2.2

/-- The configuration of C3's counterexample: reconnect disabled,
1-second global budget. -/
def cfgC3cex : Config :=
  ⟨"h:8500".data, false, some 1, none, false, false, none, none, none, none, none⟩

/-- C3 counterexample: status 204 is other than 200 and other than 500,
and the reconnect flag is disabled, yet the attempt's decision is
Continue (not fatal): a 204 response is delivered on the plain `Ok`
channel (it is 2xx), `wait` merely logs it, and a run that always
receives 204 ends with the timed-out decision instead of a fatal error
carrying 204. -/
theorem status204_retried_not_fatal :
    stepDecision false (reqChannel 204) = none
    ∧ waitLoop cfgC3cex (fun _ => reqChannel 204) (fun _ => 0) 2 0 0
        = some (.error (.timeout 10000)) :=
  ⟨rfl, rfl⟩

/-- C3 (amended): for every attempt whose outcome is delivered as an
HTTP status error (the requester reports non-2xx statuses that way)
other than 500: with reconnect disabled, the loop terminates at exactly
that attempt — whatever fuel remains — with the error carrying that
status; with reconnect enabled the decision is Continue.  A 2xx status
other than 200 is delivered as a plain response and always yields
Continue, regardless of the reconnect flag. -/
theorem statusErr_fatal_classification (s : Nat) (hs : s ≠ 500)
    (config : Config) (attempt : Nat → AttemptResult) (dur : Nat → Nat)
    (k t fuel : Nat)
    (hrec : config.reconnect = false) (hatt : attempt k = .statusErr s) :
    waitLoop config attempt dur (fuel + 1) k t = some (.error (.requestStatus s))
    ∧ stepDecision true (.statusErr s) = none
    ∧ (∀ c, 200 ≤ c → c ≤ 299 → c ≠ 200 → ∀ r, stepDecision r (reqChannel c) = none) := by
  refine ⟨?_, ?_, ?_⟩
  · simp only [waitLoop, hatt, hrec, stepDecision]
    simp [hs]
  · simp [stepDecision, hs]
  · intro c h1 h2 h3 r
    simp [reqChannel, h1, h2, stepDecision, h3]

/-- The configuration of C3's witness: reconnect disabled. -/
def cfgC3w : Config :=
  ⟨"h:8500".data, false, some 30, none, false, false, none, none, none, none, none⟩

/-- C3 witness: a 404 on the first attempt with reconnect disabled
terminates the loop at once with the error carrying 404. -/
theorem statusErr_fatal_classification_witness :
    waitLoop cfgC3w (fun _ => .statusErr 404) (fun _ => 0) 5 0 0
      = some (.error (.requestStatus 404)) :=
  (statusErr_fatal_classification 404 (by decide) cfgC3w (fun _ => .statusErr 404)
    (fun _ => 0) 0 0 4 rfl rfl).1

/-- Whether the CA-certificate stage of `add_verifier` (reached only
without `skip_verify`) gets past the optional CA: vacuously true with no
CA configured, otherwise true when the file reads, parses and is
accepted by the root store. -/
def caStageOk (w : World) (config : Config) : Bool :=
  match config.ca_cert with
  | none => true
  | some ca =>
    match w.fs ca with
    | none => false
    | some s =>
      match w.pemParse s with
      | none => false
      | some contents => w.caAddOk contents

/-- The world of C6's counterexample: every file read fails. -/
def wC6cex : World := ⟨fun _ => none, fun _ => none, fun _ _ => false, fun _ => false⟩

/-- The configuration of C6's counterexample: verification on, a CA
certificate path configured, a client certificate configured without a
client key. -/
def cfgC6cex : Config :=
  ⟨"h:8500".data, false, none, none, false, false, some ("ca.pem"),
    some ("client.pem"), none, none, none⟩

/-- C6 counterexample: with a client certificate configured and no
client key — exactly one of the pair — but an unreadable CA certificate
also configured, the build fails with `ReadCaCert`, not with
`MissingClientKey` or `MissingClientCert` as the claim states: the CA
stage runs first. -/
theorem lone_cert_ca_error_first :
    buildTlsConfig wC6cex cfgC6cex = .error .readCaCert
    ∧ Err.readCaCert ≠ Err.missingClientKey
    ∧ Err.readCaCert ≠ Err.missingClientCert :=
  ⟨rfl, by decide, by decide⟩

/-- C6 (amended): whenever exactly one of client certificate and client
key is configured, building the trust material fails (the mismatch is
never silently ignored), and the error is `MissingClientKey` (lone
certificate) or `MissingClientCert` (lone key) whenever the
CA-certificate stage does not itself fail first — that is, whenever
`skip_verify` is set or the CA stage succeeds; when a configured CA
fails to load, the build fails with that CA error instead. -/
theorem lone_credential_rejected (w : World) (config : Config)
    (h : config.client_cert.isSome ≠ config.client_key.isSome) :
    (∃ e, buildTlsConfig w config = .error e)
    ∧ ((config.skip_verify = true ∨ caStageOk w config = true) →
        buildTlsConfig w config
          = .error (if config.client_cert.isSome then Err.missingClientKey
                    else Err.missingClientCert)) := by
  have key :
      ∀ v, (addClientCert w config v
          = .error (if config.client_cert.isSome then Err.missingClientKey
                    else Err.missingClientCert))
        ∧ (addClientCert2 w config v
          = .error (if config.client_cert.isSome then Err.missingClientKey
                    else Err.missingClientCert)) := by
    intro v
    rcases hc : config.client_cert with _ | cert <;>
      rcases hk : config.client_key with _ | key
    · rw [hc, hk] at h; simp at h
    · constructor <;> simp [addClientCert, addClientCert2, hc, hk]
    · constructor <;> simp [addClientCert, addClientCert2, hc, hk]
    · rw [hc, hk] at h; simp at h
  by_cases hskip : config.skip_verify = true
  · refine ⟨⟨if config.client_cert.isSome then Err.missingClientKey
        else Err.missingClientCert, ?_⟩, fun _ => ?_⟩ <;>
      simp [buildTlsConfig, addVerifier, hskip, (key Verifier.skipping).1]
  · rcases hca : config.ca_cert with _ | ca
    · refine ⟨⟨if config.client_cert.isSome then Err.missingClientKey
          else Err.missingClientCert, ?_⟩, fun _ => ?_⟩ <;>
        simp [buildTlsConfig, addVerifier, hskip, hca, (key (Verifier.withRoots none)).2]
    · rcases hfs : w.fs ca with _ | s
      · refine ⟨⟨Err.readCaCert, ?_⟩, ?_⟩
        · simp [buildTlsConfig, addVerifier, hskip, hca, hfs]
        · rintro (h1 | h1)
          · exact absurd h1 hskip
          · simp [caStageOk, hca, hfs] at h1
      · rcases hp : w.pemParse s with _ | contents
        · refine ⟨⟨Err.parseCaCert, ?_⟩, ?_⟩
          · simp [buildTlsConfig, addVerifier, hskip, hca, hfs, hp]
          · rintro (h1 | h1)
            · exact absurd h1 hskip
            · simp [caStageOk, hca, hfs, hp] at h1
        · by_cases hadd : w.caAddOk contents = true
          · refine ⟨⟨if config.client_cert.isSome then Err.missingClientKey
                else Err.missingClientCert, ?_⟩, fun _ => ?_⟩ <;>
              simp [buildTlsConfig, addVerifier, hskip, hca, hfs, hp, hadd,
                (key (Verifier.withRoots (some contents))).2]
          · refine ⟨⟨Err.addCaCert, ?_⟩, ?_⟩
            · simp [buildTlsConfig, addVerifier, hskip, hca, hfs, hp, hadd]
            · rintro (h1 | h1)
              · exact absurd h1 hskip
              · simp [caStageOk, hca, hfs, hp, hadd] at h1

/-- The world of C6's witness: reads and parses succeed. -/
def wC6w : World := ⟨fun _ => some ("pem"), fun _ => some [7], fun _ _ => true, fun _ => true⟩

/-- The configuration of C6's witness: skip-verify on, a client
certificate configured and no client key. -/
def cfgC6w : Config :=
  ⟨"h:8500".data, false, none, none, false, true, none, some ("client.pem"),
    none, none, none⟩

/-- C6 witness: a lone client certificate is rejected with
`MissingClientKey`. -/
theorem lone_credential_rejected_witness :
    buildTlsConfig wC6w cfgC6w = .error .missingClientKey :=
  (lone_credential_rejected wC6w cfgC6w (by decide)).2 (Or.inl rfl)

/-- `load_client_cert` can only fail with the two client-cert errors. -/
lemma loadClientCert_error_cases (w : World) (p : String) (e : Err)
    (h : loadClientCert w p = .error e) :
    e = .readClientCert ∨ e = .parseClientCert := by
  rcases hfs : w.fs p with _ | s
  · simp [loadClientCert, hfs] at h; simp [h]
  · rcases hp : w.pemParse s with _ | c
    · simp [loadClientCert, hfs, hp] at h; simp [h]
    · simp [loadClientCert, hfs, hp] at h

/-- `load_client_key` can only fail with the two client-key errors. -/
lemma loadClientKey_error_cases (w : World) (p : String) (e : Err)
    (h : loadClientKey w p = .error e) :
    e = .readClientKey ∨ e = .parseClientKey := by
  rcases hfs : w.fs p with _ | s
  · simp [loadClientKey, hfs] at h; simp [h]
  · rcases hp : w.pemParse s with _ | c
    · simp [loadClientKey, hfs, hp] at h; simp [h]
    · simp [loadClientKey, hfs, hp] at h

/-- C7: with skip-verification set, the configured CA certificate is
never consulted: two configurations differing only in their `ca_cert`
field build identical trust material under every world (so an invalid
or unreadable CA file has no effect), and no CA-related error can come
out of the build. -/
theorem skip_verify_ignores_ca_cert (w : World) (config : Config)
    (h : config.skip_verify = true) (ca₁ ca₂ : Option String) :
    buildTlsConfig w { config with ca_cert := ca₁ }
      = buildTlsConfig w { config with ca_cert := ca₂ }
    ∧ (∀ e, buildTlsConfig w config = .error e →
        e ≠ .readCaCert ∧ e ≠ .parseCaCert ∧ e ≠ .addCaCert) := by
  constructor
  · simp only [buildTlsConfig, addVerifier, h, if_true]
    rcases hc : config.client_cert with _ | cert <;>
      rcases hk : config.client_key with _ | key <;>
      simp [addClientCert, hc, hk]
  · intro e he
    simp only [buildTlsConfig, addVerifier, h, if_true] at he
    rcases hc : config.client_cert with _ | cert <;>
      rcases hk : config.client_key with _ | key <;>
      simp only [addClientCert, hc, hk] at he
    · simp at he
    · simp at he; subst he; exact ⟨by decide, by decide, by decide⟩
    · simp at he; subst he; exact ⟨by decide, by decide, by decide⟩
    · rcases hlc : loadClientCert w cert with elc | cb
      · simp only [hlc] at he; simp at he; subst he
        rcases loadClientCert_error_cases w cert _ hlc with rfl | rfl <;>
          exact ⟨by decide, by decide, by decide⟩
      · simp only [hlc] at he
        rcases hlk : loadClientKey w key with elk | kb
        · simp only [hlk] at he; simp at he; subst he
          rcases loadClientKey_error_cases w key _ hlk with rfl | rfl <;>
            exact ⟨by decide, by decide, by decide⟩
        · simp only [hlk] at he
          by_cases hok : w.singleCertOk cb kb = true
          · simp [hok] at he
          · simp [hok] at he; subst he; exact ⟨by decide, by decide, by decide⟩

/-- The world of C7's witness: every read fails (the CA file, were it
consulted, would be unreadable). -/
def wC7w : World := ⟨fun _ => none, fun _ => none, fun _ _ => false, fun _ => false⟩

/-- The configuration of C7's witness: skip-verify set, no client
credentials. -/
def cfgC7w : Config :=
  ⟨"h:8500".data, true, none, none, false, true, none, none, none, none, none⟩

/-- C7 witness: under skip-verify, configuring an unreadable CA file or
none at all builds the same trust material. -/
theorem skip_verify_ignores_ca_cert_witness :
    buildTlsConfig wC7w { cfgC7w with ca_cert := some ("bad-ca.pem") }
      = buildTlsConfig wC7w { cfgC7w with ca_cert := none } :=
  (skip_verify_ignores_ca_cert wC7w cfgC7w rfl (some ("bad-ca.pem")) none).1

/-- C8: header token resolution.  A configured literal token is used as
the `X-Consul-Token` value even when a token file is also configured
(and under every world, so the file is never read); with only a token
file, the header value is the file's contents trimmed of surrounding
whitespace and a read failure is the fatal `ReadTokenFile` error; with
neither, no header is added. -/
theorem token_resolution_rules (w : World) (config : Config) :
    (∀ t, config.http_token = some t →
      headerAdderTryNew w config = .ok (some (tokenHeaderName, t)))
    ∧ (config.http_token = none → ∀ f, config.http_token_file = some f →
        (∀ s, w.fs f = some s →
          headerAdderTryNew w config = .ok (some (tokenHeaderName, rustTrim s)))
        ∧ (w.fs f = none → headerAdderTryNew w config = .error .readTokenFile))
    ∧ (config.http_token = none → config.http_token_file = none →
        headerAdderTryNew w config = .ok none) := by
  refine ⟨?_, ?_, ?_⟩
  · intro t ht
    simp [headerAdderTryNew, ht]
  · intro ht f hf
    constructor
    · intro s hs
      simp [headerAdderTryNew, ht, hf, hs]
    · intro hs
      simp [headerAdderTryNew, ht, hf, hs]
  · intro ht hf
    simp [headerAdderTryNew, ht, hf]

/-- The world of C8's witness: every file holds ` tok ` (whitespace
around the token). -/
def wC8w : World := ⟨fun _ => some (" tok "), fun _ => none, fun _ _ => false, fun _ => false⟩

/-- The configuration of C8's witness: both a literal token and a token
file configured. -/
def cfgC8w : Config :=
  ⟨"h:8500".data, false, none, none, false, false, none, none, none,
    some ("literal"), some ("token.txt")⟩

/-- C8 witness: with both sources configured the literal token wins; and
with only the file, its contents come back trimmed. -/
theorem token_resolution_rules_witness :
    headerAdderTryNew wC8w cfgC8w = .ok (some (tokenHeaderName, "literal"))
    ∧ headerAdderTryNew wC8w { cfgC8w with http_token := none }
        = .ok (some (tokenHeaderName, rustTrim (" tok "))) :=
  ⟨(token_resolution_rules wC8w cfgC8w).1 "literal" rfl,
    ((token_resolution_rules wC8w { cfgC8w with http_token := none }).2.1 rfl
      "token.txt" rfl).1 " tok " rfl⟩

/-- The configuration of C9's counterexample: address `unix:x`. -/
def cfgC9cex : Config :=
  ⟨"unix:x".data, false, none, none, false, false, none, none, none, none, none⟩

/-- The world of C9's counterexample and witness. -/
def wC9 : World := ⟨fun _ => none, fun _ => none, fun _ _ => false, fun _ => false⟩

/-- C9 counterexample: the address `unix:x` begins with `unix:` but not
with `unix:/`, so it is not rejected: `url_base` treats it as a bare
host and prefixes `http://`, and a run against it reaches the network
and can even succeed — refuting the claim for a general `unix:` prefix. -/
theorem unix_prefix_without_slash_accepted :
    List.isPrefixOf "unix:".data cfgC9cex.http_addr = true
    ∧ urlBase cfgC9cex = .ok ("http://unix:x".data, false)
    ∧ wait wC9 cfgC9cex (fun _ => .ok 200) (fun _ => 0) 1 = some (.ok ()) :=
  ⟨rfl, rfl, rfl⟩

/-- C9 (amended): for every address string with a `unix:/` prefix — the
form actual unix-socket addresses take, and the prefix the code tests —
`wait` fails with `UnixSocketUnsupported` before the polling loop
starts: the result is this error for every world, every attempt oracle
and every fuel, so zero network attempts are made. -/
theorem unix_socket_rejected_before_loop (config : Config)
    (h : List.isPrefixOf unixPre config.http_addr = true)
    (w : World) (attempt : Nat → AttemptResult) (dur : Nat → Nat) (fuel : Nat) :
    wait w config attempt dur fuel = some (.error .unixSocketUnsupported) := by
  obtain ⟨rest, hrest⟩ : unixPre <+: config.http_addr :=
    List.isPrefixOf_iff_prefix.mp h
  have h1 : httpPre.isPrefixOf (unixPre ++ rest) = false := rfl
  have h2 : httpsPre.isPrefixOf (unixPre ++ rest) = false := rfl
  have h3 : unixPre.isPrefixOf (unixPre ++ rest) = true :=
    List.isPrefixOf_iff_prefix.mpr ⟨rest, rfl⟩
  simp [wait, agentAndUrl, urlBase, ← hrest, h1, h2, h3]

/-- The configuration of C9's witness: the spec's example address
`unix:/var/run/x.sock`. -/
def cfgC9w : Config :=
  ⟨"unix:/var/run/x.sock".data, false, none, none, false, false, none, none,
    none, none, none⟩

/-- C9 witness: `unix:/var/run/x.sock` is rejected immediately even
though every attempt would have returned 200. -/
theorem unix_socket_rejected_before_loop_witness :
    wait wC9 cfgC9w (fun _ => .ok 200) (fun _ => 0) 3
      = some (.error .unixSocketUnsupported) :=
  unix_socket_rejected_before_loop cfgC9w rfl wC9 (fun _ => .ok 200) (fun _ => 0) 3

/-- C10: in skip-verification mode the client-credential logic still
runs: the build equals `add_client_cert` on the skipping verifier, that
logic is literally the same function as the verified-mode
`add_client_cert2`, a lone certificate or key is still rejected with
`MissingClientKey`/`MissingClientCert`, and a configured pair that loads
is installed as the presented client identity alongside the skipping
verifier. -/
theorem insecure_mode_client_identity (w : World) (config : Config)
    (hskip : config.skip_verify = true) :
    buildTlsConfig w config = addClientCert w config .skipping
    ∧ (∀ v, addClientCert w config v = addClientCert2 w config v)
    ∧ (∀ cert, config.client_cert = some cert → config.client_key = none →
        buildTlsConfig w config = .error .missingClientKey)
    ∧ (∀ key, config.client_cert = none → config.client_key = some key →
        buildTlsConfig w config = .error .missingClientCert)
    ∧ (∀ cert key cb kb, config.client_cert = some cert →
        config.client_key = some key →
        loadClientCert w cert = .ok cb → loadClientKey w key = .ok kb →
        w.singleCertOk cb kb = true →
        buildTlsConfig w config = .ok ⟨.skipping, .singleCert cb kb⟩) := by
  refine ⟨by simp [buildTlsConfig, addVerifier, hskip], fun v => rfl, ?_, ?_, ?_⟩
  · intro cert hc hk
    simp [buildTlsConfig, addVerifier, hskip, addClientCert, hc, hk]
  · intro key hc hk
    simp [buildTlsConfig, addVerifier, hskip, addClientCert, hc, hk]
  · intro cert key cb kb hc hk hlc hlk hok
    simp [buildTlsConfig, addVerifier, hskip, addClientCert, hc, hk, hlc, hlk, hok]

/-- The world of C10's witness: reads succeed, PEM parsing yields the
bytes `[7]`, rustls accepts the pair. -/
def wC10w : World := ⟨fun _ => some ("pem"), fun _ => some [7], fun _ _ => true, fun _ => true⟩

/-- The configuration of C10's witness: skip-verify on, both client
certificate and key configured (and a CA path, which is ignored). -/
def cfgC10w : Config :=
  ⟨"h:8500".data, true, none, none, false, true, some ("ca.pem"),
    some ("client.pem"), some ("client.key"), none, none⟩

/-- C10 witness: in skip-verify mode the configured pair is parsed and
installed as the client identity next to the skipping verifier. -/
theorem insecure_mode_client_identity_witness :
    buildTlsConfig wC10w cfgC10w = .ok ⟨.skipping, .singleCert [7] [7]⟩ :=
  (insecure_mode_client_identity wC10w cfgC10w rfl).2.2.2.2
    "client.pem" "client.key" [7] [7] rfl rfl rfl rfl rfl

end ConsulOnline
